import Mathlib

/-!
Verification of the BPA (S3 Block Public Access) CloudFormation custom-resource
handler in `src/lambda_function.py`.

The Python handler is shallowly embedded: the AWS collaborators (STS identity,
the account-level public-access-block store, SNS, and the HTTP callback) are
modelled by an oracle `Env` that fixes the outcome of each call in advance,
and every externally visible side effect (config fetch, config write, SNS
publish attempt, HTTP PUT of the response) is recorded in an `Effect` trace.
Python exceptions are modelled with `Except`: `ClientError` carries the
provider error code and message; other exceptions carry their `str`.
-/

namespace BPA

/-- The four account-level Block Public Access flags
(`get_desired_config` / the dicts passed around in `lambda_function.py`). -/
structure BPAConfig where
  blockPublicAcls : Bool
  ignorePublicAcls : Bool
  blockPublicPolicy : Bool
  restrictPublicBuckets : Bool
deriving DecidableEq, Repr

/-- A stored configuration as the store returns it: each of the four keys may
be absent (`config.get(key, True)` in `get_current_bpa_config` defaults it). -/
structure StoredConfig where
  blockPublicAcls : Option Bool
  ignorePublicAcls : Option Bool
  blockPublicPolicy : Option Bool
  restrictPublicBuckets : Option Bool
deriving DecidableEq, Repr

/-- The payload of a raised `botocore` `ClientError`: provider error code and
message, the only parts the handler inspects. -/
structure AwsErr where
  code : String
  message : String
deriving DecidableEq, Repr

/-- A raised Python exception, as far as the handler distinguishes them:
`ClientError` (caught specially in `lambda_handler`), `ValueError` (raised for
unsupported request types), or any other `Exception`. -/
inductive PyErr where
  | clientError (code message : String)
  | valueError (message : String)
  | otherError (message : String)
deriving DecidableEq, Repr

/-- Resource properties of the event; the handler only reads
`NotificationTopicArn` (absent key modelled as `none`). -/
structure Props where
  notificationTopicArn : Option String
deriving DecidableEq, Repr

/-- A CloudFormation custom-resource lifecycle event. `StackId`, `RequestId`,
`LogicalResourceId` and `ResponseURL` are accessed with `event[...]` and are
required; `PhysicalResourceId` and `ResourceProperties` use `event.get`. -/
structure Event where
  requestType : String
  stackId : String
  requestId : String
  logicalResourceId : String
  responseURL : String
  physicalResourceId : Option String
  resourceProperties : Props
deriving DecidableEq, Repr

/-- The Lambda context; the handler only reads `aws_request_id`. -/
structure Context where
  awsRequestId : String
deriving DecidableEq, Repr

/-- Oracle for the external collaborators during one invocation:
* `stsResult`: outcome of the Account lookup via `sts.get_caller_identity()`;
* `fetchResult`: outcome of `s3control.get_public_access_block` — either the
  returned `PublicAccessBlockConfiguration` or the raised `ClientError`;
* `applyError`: `some e` when `s3control.put_public_access_block` raises the
  `ClientError` `e`, `none` when it succeeds;
* `snsFails`: whether `sns.publish` raises;
* `httpFails`: whether the HTTP PUT of the response raises;
* `timestamp`: the value of `datetime.utcnow().isoformat()`. -/
structure Env where
  stsResult : Except PyErr String
  fetchResult : Except AwsErr StoredConfig
  applyError : Option AwsErr
  snsFails : Bool
  httpFails : Bool
  timestamp : String

/-- The `Data` mapping of a response: either the create-path data (four flags,
`ConfigurationChanged`, `Timestamp`) or the update/delete-path data
(`Message`, `Timestamp`). -/
inductive RespData where
  | createData (config : BPAConfig) (configurationChanged : Bool) (timestamp : String)
  | messageData (message timestamp : String)
deriving DecidableEq, Repr

/-- The response body built by `send_response`. -/
structure ResponseBody where
  status : String
  reason : String
  physicalResourceId : String
  stackId : String
  requestId : String
  logicalResourceId : String
  data : Option RespData
deriving DecidableEq, Repr

/-- Externally visible side effects, in program order:
a read of the store, a write of the store, an SNS publish attempt
(`delivered = false` when the publish raised and was swallowed), and an HTTP
PUT of a response body (`delivered = false` when the PUT raised and was
swallowed). -/
inductive Effect where
  | fetchConfig (accountId : String)
  | applyConfig (config : BPAConfig) (accountId : String)
  | publish (topicArn subject : String) (delivered : Bool)
  | putResponse (url : String) (body : ResponseBody) (delivered : Bool)
deriving DecidableEq, Repr

/-- Python `get_account_id`: the Account field of `sts.get_caller_identity()`. -/
def get_account_id (env : Env) : Except PyErr String :=
  env.stsResult

/-- Python `get_current_bpa_config(account_id)`: fetches the configuration of
the account,
defaulting each absent flag to `True`; a `NoSuchPublicAccessBlockConfiguration`
error yields `None`; any other `ClientError` is re-raised. -/
def get_current_bpa_config (env : Env) (account_id : String) :
    Except PyErr (Option BPAConfig) × List Effect :=
  (match env.fetchResult with
   | .ok config =>
       .ok (some
         { blockPublicAcls := config.blockPublicAcls.getD true
           ignorePublicAcls := config.ignorePublicAcls.getD true
           blockPublicPolicy := config.blockPublicPolicy.getD true
           restrictPublicBuckets := config.restrictPublicBuckets.getD true })
   | .error e =>
       if e.code = "NoSuchPublicAccessBlockConfiguration" then .ok none
       else .error (.clientError e.code e.message),
   [Effect.fetchConfig account_id])

/-- Python `apply_bpa_config(config, account_id)`: writes the configuration and
returns it; a raised `ClientError` propagates. -/
def apply_bpa_config (env : Env) (config : BPAConfig) (account_id : String) :
    Except PyErr BPAConfig × List Effect :=
  (match env.applyError with
   | none => .ok config
   | some e => .error (.clientError e.code e.message),
   [Effect.applyConfig config account_id])

/-- Python `configs_equal(current, desired)`: `False` when current is `None`,
otherwise field-wise equality of the four flags. -/
def configs_equal (current : Option BPAConfig) (desired : BPAConfig) : Bool :=
  match current with
  | none => false
  | some c =>
      c.blockPublicAcls == desired.blockPublicAcls &&
      c.ignorePublicAcls == desired.ignorePublicAcls &&
      c.blockPublicPolicy == desired.blockPublicPolicy &&
      c.restrictPublicBuckets == desired.restrictPublicBuckets

/-- Python `get_desired_config()`: all four flags enabled. -/
def get_desired_config : BPAConfig :=
  { blockPublicAcls := true
    ignorePublicAcls := true
    blockPublicPolicy := true
    restrictPublicBuckets := true }

/-- Python `send_sns_notification(topic_arn, subject, message)`: returns at once when
`topic_arn` is falsy (`None` or the empty string); otherwise attempts one
publish, and a raised delivery error is caught and only logged. The JSON
message body is not inspected by anything downstream and is elided from the
recorded effect. -/
def send_sns_notification (env : Env) (topic_arn : Option String)
    (subject _message : String) : List Effect :=
  match topic_arn with
  | none => []
  | some t =>
      if t = "" then []
      else [Effect.publish t subject (!env.snsFails)]

/-- The `response_body` dict built inside `send_response`:
`PhysicalResourceId` is taken from the event when present, otherwise
`f"account-bpa-{context.aws_request_id}"`; `data` is `none` exactly when the
Python `data` argument is falsy. -/
def response_body (event : Event) (ctx : Context)
    (status reason : String) (data : Option RespData) : ResponseBody :=
  { status := status
    reason := reason
    physicalResourceId :=
      match event.physicalResourceId with
      | some pid => pid
      | none => "account-bpa-" ++ ctx.awsRequestId
    stackId := event.stackId
    requestId := event.requestId
    logicalResourceId := event.logicalResourceId
    data := data }

/-- Python `send_response(event, context, status, reason, data)`: one HTTP PUT
attempt of the response body to the `ResponseURL` of the event; a raised delivery
error is caught and only logged. -/
def send_response (env : Env) (event : Event) (ctx : Context)
    (status reason : String) (data : Option RespData) : List Effect :=
  [Effect.putResponse event.responseURL (response_body event ctx status reason data)
    (!env.httpFails)]

/-- The tail of `handle_create` after `final_config`, `config_changed` and
`message` are fixed: build `data`, send the notification, send the response. -/
def finish_create (env : Env) (event : Event) (ctx : Context)
    (topic_arn : Option String) (final_config : BPAConfig)
    (config_changed : Bool) (message : String) (eff : List Effect) :
    Except PyErr Unit × List Effect :=
  let data : RespData := .createData final_config config_changed env.timestamp
  (.ok (),
   eff ++
   send_sns_notification env topic_arn
     "S3 Block Public Access - Configuration Applied" message ++
   send_response env event ctx "SUCCESS" message (some data))

/-- Python `handle_create(event, context, properties)`: resolve the account, fetch the
current configuration, compare with the desired one, write it when different,
then notify and respond. Any raised exception propagates to `lambda_handler`
together with the effects already performed. In the equal branch the Python
code subscripts `current_config`, which would raise `TypeError` were it `None`
(unreachable, since `configs_equal(None, _)` is `False`). -/
def handle_create (env : Env) (event : Event) (ctx : Context)
    (properties : Props) : Except PyErr Unit × List Effect :=
  match get_account_id env with
  | .error e => (.error e, [])
  | .ok account_id =>
      let desired_config := get_desired_config
      match get_current_bpa_config env account_id with
      | (.error e, eff) => (.error e, eff)
      | (.ok current_config, eff) =>
          let topic_arn := properties.notificationTopicArn
          if configs_equal current_config desired_config then
            match current_config with
            | some final_config =>
                finish_create env event ctx topic_arn final_config false
                  "S3 Block Public Access already fully enabled at account level" eff
            | none => (.error (.otherError "NoneType is not subscriptable"), eff)
          else
            match apply_bpa_config env desired_config account_id with
            | (.error e, eff2) => (.error e, eff ++ eff2)
            | (.ok final_config, eff2) =>
                finish_create env event ctx topic_arn final_config true
                  "S3 Block Public Access fully enabled at account level" (eff ++ eff2)

/-- The shared body of the two failure handlers in `lambda_handler`: best-effort
failure notification, then a FAILED response. -/
def fail_path (env : Env) (event : Event) (ctx : Context)
    (subject reason : String) (eff : List Effect) : List Effect :=
  eff ++
  send_sns_notification env event.resourceProperties.notificationTopicArn
    subject reason ++
  send_response env event ctx "FAILED" reason none

/-- Python `lambda_handler(event, context)`: dispatch on `RequestType`; `Create` runs
`handle_create`, `Update`/`Delete` respond SUCCESS at once, anything else
raises `ValueError`. A raised `ClientError` is translated (`AccessDenied` gets
the insufficient-permissions reason, others the provider code), any other
exception gets an `Internal error` reason; both failure handlers notify
best-effort and respond FAILED. The result is the full effect trace of the
invocation. -/
def lambda_handler (env : Env) (event : Event) (ctx : Context) : List Effect :=
  let step : Except PyErr Unit × List Effect :=
    if event.requestType = "Create" then
      handle_create env event ctx event.resourceProperties
    else if event.requestType = "Update" ∨ event.requestType = "Delete" then
      let data : RespData :=
        .messageData (event.requestType ++ " operation completed - no changes made")
          env.timestamp
      (.ok (),
       send_response env event ctx "SUCCESS"
         (event.requestType ++ " operation completed") (some data))
    else
      (.error (.valueError ("Unsupported request type: " ++ event.requestType)), [])
  match step with
  | (.ok _, eff) => eff
  | (.error (.clientError code _), eff) =>
      let reason :=
        if code = "AccessDenied" then
          "Insufficient permissions to modify S3 Block Public Access settings"
        else "AWS API error: " ++ code
      fail_path env event ctx "S3 Block Public Access - Configuration Failed"
        reason eff
  | (.error (.valueError m), eff) =>
      fail_path env event ctx "S3 Block Public Access - Internal Error"
        ("Internal error: " ++ m) eff
  | (.error (.otherError m), eff) =>
      fail_path env event ctx "S3 Block Public Access - Internal Error"
        ("Internal error: " ++ m) eff

/-- The store reads in a trace, in order (argument of each fetch). -/
def fetchCalls (eff : List Effect) : List String :=
  eff.filterMap fun e =>
    match e with
    | .fetchConfig a => some a
    | _ => none

/-- The store writes in a trace, in order (configuration written and account). -/
def applyCalls (eff : List Effect) : List (BPAConfig × String) :=
  eff.filterMap fun e =>
    match e with
    | .applyConfig c a => some (c, a)
    | _ => none

/-- The subjects of the SNS publish attempts in a trace, in order. -/
def publishSubjects (eff : List Effect) : List String :=
  eff.filterMap fun e =>
    match e with
    | .publish _ s _ => some s
    | _ => none

/-- The callback delivery attempts in a trace, in order (URL and body). -/
def callbacks (eff : List Effect) : List (String × ResponseBody) :=
  eff.filterMap fun e =>
    match e with
    | .putResponse u b _ => some (u, b)
    | _ => none

theorem fetchCalls_append (a b : List Effect) :
    fetchCalls (a ++ b) = fetchCalls a ++ fetchCalls b := by
  simp [fetchCalls, List.filterMap_append]

theorem applyCalls_append (a b : List Effect) :
    applyCalls (a ++ b) = applyCalls a ++ applyCalls b := by
  simp [applyCalls, List.filterMap_append]

theorem publishSubjects_append (a b : List Effect) :
    publishSubjects (a ++ b) = publishSubjects a ++ publishSubjects b := by
  simp [publishSubjects, List.filterMap_append]

theorem callbacks_append (a b : List Effect) :
    callbacks (a ++ b) = callbacks a ++ callbacks b := by
  simp [callbacks, List.filterMap_append]

theorem fetchCalls_sns (env : Env) (t : Option String) (s m : String) :
    fetchCalls (send_sns_notification env t s m) = [] := by
  unfold send_sns_notification
  cases t with
  | none => rfl
  | some t' => by_cases h : t' = "" <;> simp [h, fetchCalls]

theorem applyCalls_sns (env : Env) (t : Option String) (s m : String) :
    applyCalls (send_sns_notification env t s m) = [] := by
  unfold send_sns_notification
  cases t with
  | none => rfl
  | some t' => by_cases h : t' = "" <;> simp [h, applyCalls]

theorem callbacks_sns (env : Env) (t : Option String) (s m : String) :
    callbacks (send_sns_notification env t s m) = [] := by
  unfold send_sns_notification
  cases t with
  | none => rfl
  | some t' => by_cases h : t' = "" <;> simp [h, callbacks]

theorem publishSubjects_sns (env : Env) (t : Option String) (s m : String) :
    publishSubjects (send_sns_notification env t s m)
      = match t with
        | none => []
        | some t' => if t' = "" then [] else [s] := by
  unfold send_sns_notification
  cases t with
  | none => rfl
  | some t' => by_cases h : t' = "" <;> simp [h, publishSubjects]

theorem fetchCalls_send_response (env : Env) (event : Event) (ctx : Context)
    (st r : String) (d : Option RespData) :
    fetchCalls (send_response env event ctx st r d) = [] := rfl

theorem applyCalls_send_response (env : Env) (event : Event) (ctx : Context)
    (st r : String) (d : Option RespData) :
    applyCalls (send_response env event ctx st r d) = [] := rfl

theorem publishSubjects_send_response (env : Env) (event : Event) (ctx : Context)
    (st r : String) (d : Option RespData) :
    publishSubjects (send_response env event ctx st r d) = [] := rfl

theorem callbacks_send_response (env : Env) (event : Event) (ctx : Context)
    (st r : String) (d : Option RespData) :
    callbacks (send_response env event ctx st r d)
      = [(event.responseURL, response_body event ctx st r d)] := rfl

/-- C5: for every event with RequestType `Update` or `Delete`, dispatch returns
a response with Status = SUCCESS regardless of the resource
properties of the event, and performs no read (`get_current_bpa_config`) and no write
(`apply_bpa_config`) of the BPA configuration. -/
theorem update_delete_success_no_read_write
    (env : Env) (event : Event) (ctx : Context)
    (hrt : event.requestType = "Update" ∨ event.requestType = "Delete") :
    (∃ b, callbacks (lambda_handler env event ctx) = [(event.responseURL, b)] ∧
        b.status = "SUCCESS") ∧
    fetchCalls (lambda_handler env event ctx) = [] ∧
    applyCalls (lambda_handler env event ctx) = [] := by
  rcases hrt with h | h <;>
    simp [lambda_handler, h, send_response, callbacks, fetchCalls, applyCalls,
      response_body]

theorem update_delete_success_no_read_write_witness :
    (∃ b, callbacks (lambda_handler
        ⟨.ok "123456789012", .ok ⟨some true, some true, some true, some true⟩, none,
          false, false, "2026-01-01T00:00:00"⟩
        ⟨"Delete", "arn:aws:cloudformation:us-east-1:123456789012:stack/x/y", "r1",
          "S3BlockPublicAccess", "https://example.com/cb", some "account-bpa-old", ⟨none⟩⟩
        ⟨"req-42"⟩) = [("https://example.com/cb", b)] ∧
        b.status = "SUCCESS") ∧
    fetchCalls (lambda_handler
        ⟨.ok "123456789012", .ok ⟨some true, some true, some true, some true⟩, none,
          false, false, "2026-01-01T00:00:00"⟩
        ⟨"Delete", "arn:aws:cloudformation:us-east-1:123456789012:stack/x/y", "r1",
          "S3BlockPublicAccess", "https://example.com/cb", some "account-bpa-old", ⟨none⟩⟩
        ⟨"req-42"⟩) = [] ∧
    applyCalls (lambda_handler
        ⟨.ok "123456789012", .ok ⟨some true, some true, some true, some true⟩, none,
          false, false, "2026-01-01T00:00:00"⟩
        ⟨"Delete", "arn:aws:cloudformation:us-east-1:123456789012:stack/x/y", "r1",
          "S3BlockPublicAccess", "https://example.com/cb", some "account-bpa-old", ⟨none⟩⟩
        ⟨"req-42"⟩) = [] :=
  update_delete_success_no_read_write _ _ _ (Or.inr rfl)

/-- C6: for every event whose RequestType is none of Create, Update, Delete,
dispatch returns a FAILED response whose reason contains the text
"Unsupported request type", and performs no read or write of the BPA
configuration. -/
theorem unsupported_request_type_fails
    (env : Env) (event : Event) (ctx : Context)
    (h1 : event.requestType ≠ "Create") (h2 : event.requestType ≠ "Update")
    (h3 : event.requestType ≠ "Delete") :
    (∃ b, callbacks (lambda_handler env event ctx) = [(event.responseURL, b)] ∧
        b.status = "FAILED" ∧
        ∃ s1 s2, b.reason = s1 ++ "Unsupported request type" ++ s2) ∧
    fetchCalls (lambda_handler env event ctx) = [] ∧
    applyCalls (lambda_handler env event ctx) = [] := by
  have key : lambda_handler env event ctx =
      fail_path env event ctx "S3 Block Public Access - Internal Error"
        ("Internal error: " ++ ("Unsupported request type: " ++ event.requestType))
        [] := by
    simp [lambda_handler, h1, h2, h3]
  rw [key]
  unfold fail_path
  refine ⟨⟨response_body event ctx "FAILED"
      ("Internal error: " ++ ("Unsupported request type: " ++ event.requestType)) none,
      ?_, rfl, "Internal error: ", ": " ++ event.requestType, ?_⟩, ?_, ?_⟩
  · simp [callbacks_append, callbacks_sns, callbacks_send_response]
  · rfl
  · simp [fetchCalls_append, fetchCalls_sns, fetchCalls_send_response]
  · simp [applyCalls_append, applyCalls_sns, applyCalls_send_response]

theorem unsupported_request_type_fails_witness :
    (∃ b, callbacks (lambda_handler
        ⟨.ok "123456789012", .ok ⟨some true, some true, some true, some true⟩, none,
          false, false, "2026-01-01T00:00:00"⟩
        ⟨"Read", "arn:aws:cloudformation:us-east-1:123456789012:stack/x/y", "r1",
          "S3BlockPublicAccess", "https://example.com/cb", none, ⟨none⟩⟩
        ⟨"req-42"⟩) = [("https://example.com/cb", b)] ∧
        b.status = "FAILED" ∧
        ∃ s1 s2, b.reason = s1 ++ "Unsupported request type" ++ s2) ∧
    fetchCalls (lambda_handler
        ⟨.ok "123456789012", .ok ⟨some true, some true, some true, some true⟩, none,
          false, false, "2026-01-01T00:00:00"⟩
        ⟨"Read", "arn:aws:cloudformation:us-east-1:123456789012:stack/x/y", "r1",
          "S3BlockPublicAccess", "https://example.com/cb", none, ⟨none⟩⟩
        ⟨"req-42"⟩) = [] ∧
    applyCalls (lambda_handler
        ⟨.ok "123456789012", .ok ⟨some true, some true, some true, some true⟩, none,
          false, false, "2026-01-01T00:00:00"⟩
        ⟨"Read", "arn:aws:cloudformation:us-east-1:123456789012:stack/x/y", "r1",
          "S3BlockPublicAccess", "https://example.com/cb", none, ⟨none⟩⟩
        ⟨"req-42"⟩) = [] :=
  unsupported_request_type_fails _ _ _ (by decide) (by decide) (by decide)

theorem fetchCalls_nil : fetchCalls [] = [] := rfl

theorem applyCalls_nil : applyCalls [] = [] := rfl

theorem publishSubjects_nil : publishSubjects [] = [] := rfl

theorem callbacks_nil : callbacks [] = [] := rfl

theorem callbacks_cons_fetch (a : String) (l : List Effect) :
    callbacks (Effect.fetchConfig a :: l) = callbacks l := rfl

theorem callbacks_cons_apply (c : BPAConfig) (a : String) (l : List Effect) :
    callbacks (Effect.applyConfig c a :: l) = callbacks l := rfl

theorem fetchCalls_cons_fetch (a : String) (l : List Effect) :
    fetchCalls (Effect.fetchConfig a :: l) = a :: fetchCalls l := rfl

theorem fetchCalls_cons_apply (c : BPAConfig) (a : String) (l : List Effect) :
    fetchCalls (Effect.applyConfig c a :: l) = fetchCalls l := rfl

theorem applyCalls_cons_fetch (a : String) (l : List Effect) :
    applyCalls (Effect.fetchConfig a :: l) = applyCalls l := rfl

theorem applyCalls_cons_apply (c : BPAConfig) (a : String) (l : List Effect) :
    applyCalls (Effect.applyConfig c a :: l) = (c, a) :: applyCalls l := rfl

theorem publishSubjects_cons_fetch (a : String) (l : List Effect) :
    publishSubjects (Effect.fetchConfig a :: l) = publishSubjects l := rfl

theorem publishSubjects_cons_apply (c : BPAConfig) (a : String) (l : List Effect) :
    publishSubjects (Effect.applyConfig c a :: l) = publishSubjects l := rfl

/-- The callback attempts of a failure path: whatever the aborted create
attempted (nothing), then exactly one FAILED response. -/
theorem callbacks_fail_path (env : Env) (event : Event) (ctx : Context)
    (s r : String) (eff : List Effect) (h : callbacks eff = []) :
    callbacks (fail_path env event ctx s r eff)
      = [(event.responseURL, response_body event ctx "FAILED" r none)] := by
  unfold fail_path
  simp [callbacks_append, h, callbacks_sns, callbacks_send_response]

/-- Every run of `handle_create` either raises (delivering no callback itself)
or succeeds having attempted exactly one callback, a SUCCESS response to the
`ResponseURL` of the event. -/
theorem handle_create_shape (env : Env) (event : Event) (ctx : Context) (props : Props) :
    (∃ e eff, handle_create env event ctx props = (Except.error e, eff) ∧
        callbacks eff = []) ∨
    (∃ b eff, handle_create env event ctx props = (Except.ok (), eff) ∧
        callbacks eff = [(event.responseURL, b)] ∧ b.status = "SUCCESS") := by
  unfold handle_create get_account_id
  cases hs : env.stsResult with
  | error e => exact Or.inl ⟨e, [], rfl, rfl⟩
  | ok aid =>
    unfold get_current_bpa_config
    cases hf : env.fetchResult with
    | error fe =>
      by_cases hcode : fe.code = "NoSuchPublicAccessBlockConfiguration"
      · simp only [hcode, if_pos, apply_bpa_config]
        cases ha : env.applyError with
        | some ae =>
          refine Or.inl ⟨PyErr.clientError ae.code ae.message, _, rfl, ?_⟩
          simp [callbacks]
        | none =>
          refine Or.inr ⟨response_body event ctx "SUCCESS"
              "S3 Block Public Access fully enabled at account level"
              (some (RespData.createData get_desired_config true env.timestamp)),
            _, rfl, ?_, rfl⟩
          simp [callbacks_nil, callbacks_cons_fetch, callbacks_cons_apply,
            callbacks_append, callbacks_sns, callbacks_send_response]
      · simp only [hcode, if_neg, if_false]
        refine Or.inl ⟨PyErr.clientError fe.code fe.message, _, rfl, ?_⟩
        simp [callbacks]
    | ok cfg =>
      simp only [apply_bpa_config]
      cases hc : configs_equal (some
          { blockPublicAcls := cfg.blockPublicAcls.getD true
            ignorePublicAcls := cfg.ignorePublicAcls.getD true
            blockPublicPolicy := cfg.blockPublicPolicy.getD true
            restrictPublicBuckets := cfg.restrictPublicBuckets.getD true })
          get_desired_config with
      | true =>
        refine Or.inr ⟨response_body event ctx "SUCCESS"
            "S3 Block Public Access already fully enabled at account level"
            (some (RespData.createData
              { blockPublicAcls := cfg.blockPublicAcls.getD true
                ignorePublicAcls := cfg.ignorePublicAcls.getD true
                blockPublicPolicy := cfg.blockPublicPolicy.getD true
                restrictPublicBuckets := cfg.restrictPublicBuckets.getD true }
              false env.timestamp)),
          _, rfl, ?_, rfl⟩
        simp [callbacks_nil, callbacks_cons_fetch, callbacks_append, callbacks_sns,
          callbacks_send_response]
      | false =>
        cases ha : env.applyError with
        | some ae =>
          refine Or.inl ⟨PyErr.clientError ae.code ae.message, _, rfl, ?_⟩
          simp [callbacks]
        | none =>
          refine Or.inr ⟨response_body event ctx "SUCCESS"
              "S3 Block Public Access fully enabled at account level"
              (some (RespData.createData get_desired_config true env.timestamp)),
            _, rfl, ?_, rfl⟩
          simp [callbacks_nil, callbacks_cons_fetch, callbacks_cons_apply,
            callbacks_append, callbacks_sns, callbacks_send_response]

/-- C7: for every event carrying the required correlation fields, every
execution path of the dispatcher — success, any caught provider error, and
any other caught fault — ends by attempting exactly one callback delivery of a
response to the callback URL of the event. -/
theorem every_path_attempts_one_callback (env : Env) (event : Event) (ctx : Context) :
    ∃ b, callbacks (lambda_handler env event ctx) = [(event.responseURL, b)] := by
  unfold lambda_handler
  by_cases h1 : event.requestType = "Create"
  · simp only [h1, if_pos]
    rcases handle_create_shape env event ctx event.resourceProperties with
      ⟨e, eff, heq, hcb⟩ | ⟨b, eff, heq, hcb, _⟩
    · rw [heq]
      cases e with
      | clientError code m => exact ⟨_, callbacks_fail_path _ _ _ _ _ _ hcb⟩
      | valueError m => exact ⟨_, callbacks_fail_path _ _ _ _ _ _ hcb⟩
      | otherError m => exact ⟨_, callbacks_fail_path _ _ _ _ _ _ hcb⟩
    · rw [heq]
      exact ⟨b, hcb⟩
  · by_cases h2 : event.requestType = "Update"
    · simp [h1, h2, callbacks_send_response]
    · by_cases h3 : event.requestType = "Delete"
      · simp [h1, h2, h3, callbacks_send_response]
      · simp only [h1, h2, h3, if_neg, if_false, or_self]
        exact ⟨_, callbacks_fail_path _ _ _ _ _ _ rfl⟩

/-- Inversion of a successful fetch: the store either returned a configuration
(each absent flag defaulted to `true`) or reported not-configured. -/
theorem fetch_inversion (env : Env) (aid : String) (current : Option BPAConfig)
    (h : (get_current_bpa_config env aid).1 = .ok current) :
    (∃ cfg, env.fetchResult = .ok cfg ∧ current = some
        { blockPublicAcls := cfg.blockPublicAcls.getD true
          ignorePublicAcls := cfg.ignorePublicAcls.getD true
          blockPublicPolicy := cfg.blockPublicPolicy.getD true
          restrictPublicBuckets := cfg.restrictPublicBuckets.getD true }) ∨
    (∃ fe, env.fetchResult = .error fe ∧
        fe.code = "NoSuchPublicAccessBlockConfiguration" ∧ current = none) := by
  unfold get_current_bpa_config at h
  cases hf : env.fetchResult with
  | ok cfg =>
    rw [hf] at h
    simp at h
    exact Or.inl ⟨cfg, rfl, h.symm⟩
  | error fe =>
    rw [hf] at h
    by_cases hc : fe.code = "NoSuchPublicAccessBlockConfiguration"
    · simp [hc] at h
      exact Or.inr ⟨fe, rfl, hc, h.symm⟩
    · simp [hc] at h

/-- When the fetched configuration differs from the desired one and the write
succeeds, `handle_create` reads, writes the desired configuration, notifies
and responds SUCCESS with `ConfigurationChanged = true`. -/
theorem handle_create_applies_eq (env : Env) (event : Event) (ctx : Context)
    (props : Props) (aid : String) (current : Option BPAConfig)
    (hsts : env.stsResult = .ok aid)
    (hfetch : (get_current_bpa_config env aid).1 = .ok current)
    (hne : configs_equal current get_desired_config = false)
    (happly : env.applyError = none) :
    handle_create env event ctx props = (.ok (),
      [Effect.fetchConfig aid, Effect.applyConfig get_desired_config aid] ++
      send_sns_notification env props.notificationTopicArn
        "S3 Block Public Access - Configuration Applied"
        "S3 Block Public Access fully enabled at account level" ++
      send_response env event ctx "SUCCESS"
        "S3 Block Public Access fully enabled at account level"
        (some (RespData.createData get_desired_config true env.timestamp))) := by
  unfold handle_create get_account_id
  rw [hsts]
  rcases fetch_inversion env aid current hfetch with ⟨cfg, hfr, hcur⟩ | ⟨fe, hfr, hcode, hcur⟩
  · subst hcur
    simp [get_current_bpa_config, hfr, hne, apply_bpa_config, happly, finish_create]
  · subst hcur
    simp [get_current_bpa_config, hfr, hcode, configs_equal, apply_bpa_config,
      happly, finish_create]

/-- When the fetched configuration equals the desired one, `handle_create`
only reads, then notifies and responds SUCCESS with
`ConfigurationChanged = false`. -/
theorem handle_create_no_write_eq (env : Env) (event : Event) (ctx : Context)
    (props : Props) (aid : String) (c : BPAConfig)
    (hsts : env.stsResult = .ok aid)
    (hfetch : (get_current_bpa_config env aid).1 = .ok (some c))
    (heq : configs_equal (some c) get_desired_config = true) :
    handle_create env event ctx props = (.ok (),
      [Effect.fetchConfig aid] ++
      send_sns_notification env props.notificationTopicArn
        "S3 Block Public Access - Configuration Applied"
        "S3 Block Public Access already fully enabled at account level" ++
      send_response env event ctx "SUCCESS"
        "S3 Block Public Access already fully enabled at account level"
        (some (RespData.createData c false env.timestamp))) := by
  unfold handle_create get_account_id
  rw [hsts]
  rcases fetch_inversion env aid (some c) hfetch with ⟨cfg, hfr, hcur⟩ | ⟨fe, hfr, hcode, hcur⟩
  · have hc : c = { blockPublicAcls := cfg.blockPublicAcls.getD true
                    ignorePublicAcls := cfg.ignorePublicAcls.getD true
                    blockPublicPolicy := cfg.blockPublicPolicy.getD true
                    restrictPublicBuckets := cfg.restrictPublicBuckets.getD true } := by
      injection hcur
    subst hc
    simp [get_current_bpa_config, hfr, heq, finish_create]
  · exact absurd hcur (by simp)

/-- A fetch failure other than not-configured propagates out of
`handle_create` after the single read. -/
theorem handle_create_fetch_error_eq (env : Env) (event : Event) (ctx : Context)
    (props : Props) (aid : String) (fe : AwsErr)
    (hsts : env.stsResult = .ok aid)
    (hfr : env.fetchResult = .error fe)
    (hcode : fe.code ≠ "NoSuchPublicAccessBlockConfiguration") :
    handle_create env event ctx props
      = (.error (.clientError fe.code fe.message), [Effect.fetchConfig aid]) := by
  unfold handle_create get_account_id get_current_bpa_config
  rw [hsts, hfr]
  simp [hcode]

/-- A write failure propagates out of `handle_create` after the read and the
write attempt, with no notification and no response of its own. -/
theorem handle_create_apply_error_eq (env : Env) (event : Event) (ctx : Context)
    (props : Props) (aid : String) (current : Option BPAConfig) (ae : AwsErr)
    (hsts : env.stsResult = .ok aid)
    (hfetch : (get_current_bpa_config env aid).1 = .ok current)
    (hne : configs_equal current get_desired_config = false)
    (ha : env.applyError = some ae) :
    handle_create env event ctx props
      = (.error (.clientError ae.code ae.message),
         [Effect.fetchConfig aid, Effect.applyConfig get_desired_config aid]) := by
  unfold handle_create get_account_id
  rw [hsts]
  rcases fetch_inversion env aid current hfetch with ⟨cfg, hfr, hcur⟩ | ⟨fe, hfr, hcode, hcur⟩
  · subst hcur
    simp [get_current_bpa_config, hfr, hne, apply_bpa_config, ha]
  · subst hcur
    simp [get_current_bpa_config, hfr, hcode, configs_equal, apply_bpa_config, ha]

/-- On a Create event, a successful `handle_create` is the whole invocation. -/
theorem lambda_handler_create_ok (env : Env) (event : Event) (ctx : Context)
    (eff : List Effect)
    (hrt : event.requestType = "Create")
    (h : handle_create env event ctx event.resourceProperties = (.ok (), eff)) :
    lambda_handler env event ctx = eff := by
  unfold lambda_handler
  simp [hrt, h]

/-- On a Create event, a raised `ClientError` is translated into the failure
path: `AccessDenied` gets the insufficient-permissions reason, any other code
the provider error code. -/
theorem lambda_handler_create_client_error (env : Env) (event : Event)
    (ctx : Context) (eff : List Effect) (code msg : String)
    (hrt : event.requestType = "Create")
    (h : handle_create env event ctx event.resourceProperties
        = (.error (.clientError code msg), eff)) :
    lambda_handler env event ctx = fail_path env event ctx
      "S3 Block Public Access - Configuration Failed"
      (if code = "AccessDenied" then
        "Insufficient permissions to modify S3 Block Public Access settings"
       else "AWS API error: " ++ code) eff := by
  unfold lambda_handler
  simp [hrt, h]

/-- A fully restrictive stored configuration, as the store returns it. -/
def storedAllTrue : StoredConfig :=
  ⟨some true, some true, some true, some true⟩

/-- A clean-run oracle with a chosen fetch outcome: identity resolves to
account `123456789012`, the write, the publish and the PUT succeed. -/
def sampleEnv (fetch : Except AwsErr StoredConfig) : Env :=
  { stsResult := .ok "123456789012"
    fetchResult := fetch
    applyError := none
    snsFails := false
    httpFails := false
    timestamp := "2026-01-01T00:00:00" }

/-- A Create event with no physical resource id and a chosen topic. -/
def sampleCreateEvent (topic : Option String) : Event :=
  { requestType := "Create"
    stackId := "arn:aws:cloudformation:us-east-1:123456789012:stack/x/y"
    requestId := "r1"
    logicalResourceId := "S3BlockPublicAccess"
    responseURL := "https://example.com/cb"
    physicalResourceId := none
    resourceProperties := ⟨topic⟩ }

/-- A Lambda context with request id `req-42`. -/
def sampleCtx : Context := ⟨"req-42"⟩

/-- C1: for every Create event whose fetched current configuration is absent
or has at least one of the four BPA flags false, the create handler calls the
store write with the all-true desired configuration and the invocation
delivers a SUCCESS response whose `Data` has `ConfigurationChanged = true` and
all four flags (`BlockPublicAcls`, `IgnorePublicAcls`, `BlockPublicPolicy`,
`RestrictPublicBuckets`) equal to true. -/
theorem handle_create_noncompliant_applies_all_true
    (env : Env) (event : Event) (ctx : Context) (aid : String)
    (current : Option BPAConfig)
    (hrt : event.requestType = "Create")
    (hsts : env.stsResult = .ok aid)
    (hfetch : (get_current_bpa_config env aid).1 = .ok current)
    (hnc : current = none ∨ ∃ c, current = some c ∧
        (c.blockPublicAcls = false ∨ c.ignorePublicAcls = false ∨
         c.blockPublicPolicy = false ∨ c.restrictPublicBuckets = false))
    (happly : env.applyError = none) :
    applyCalls (lambda_handler env event ctx)
      = [({ blockPublicAcls := true, ignorePublicAcls := true,
            blockPublicPolicy := true, restrictPublicBuckets := true }, aid)] ∧
    ∃ b, callbacks (lambda_handler env event ctx) = [(event.responseURL, b)] ∧
      b.status = "SUCCESS" ∧
      b.data = some (RespData.createData
        { blockPublicAcls := true, ignorePublicAcls := true,
          blockPublicPolicy := true, restrictPublicBuckets := true }
        true env.timestamp) := by
  have hne : configs_equal current get_desired_config = false := by
    rcases hnc with h | ⟨c, hc, hflag⟩
    · subst h; rfl
    · subst hc
      rcases hflag with h | h | h | h <;> simp [configs_equal, get_desired_config, h]
  have key := lambda_handler_create_ok env event ctx _ hrt
    (handle_create_applies_eq env event ctx event.resourceProperties aid current
      hsts hfetch hne happly)
  rw [key]
  refine ⟨?_, response_body event ctx "SUCCESS"
      "S3 Block Public Access fully enabled at account level"
      (some (RespData.createData get_desired_config true env.timestamp)),
    ?_, rfl, rfl⟩
  · simp [applyCalls_cons_fetch, applyCalls_cons_apply, applyCalls_append,
      applyCalls_sns, applyCalls_send_response, applyCalls_nil, get_desired_config]
  · simp [callbacks_cons_fetch, callbacks_cons_apply, callbacks_append,
      callbacks_sns, callbacks_send_response, callbacks_nil]

theorem handle_create_noncompliant_applies_all_true_witness :
    applyCalls (lambda_handler (sampleEnv (.ok ⟨some false, some true, some true, some true⟩))
        (sampleCreateEvent none) sampleCtx)
      = [({ blockPublicAcls := true, ignorePublicAcls := true,
            blockPublicPolicy := true, restrictPublicBuckets := true }, "123456789012")] ∧
    ∃ b, callbacks (lambda_handler (sampleEnv (.ok ⟨some false, some true, some true, some true⟩))
        (sampleCreateEvent none) sampleCtx)
      = [((sampleCreateEvent none).responseURL, b)] ∧
      b.status = "SUCCESS" ∧
      b.data = some (RespData.createData
        { blockPublicAcls := true, ignorePublicAcls := true,
          blockPublicPolicy := true, restrictPublicBuckets := true }
        true (sampleEnv (.ok ⟨some false, some true, some true, some true⟩)).timestamp) :=
  handle_create_noncompliant_applies_all_true _ _ _ "123456789012"
    (some ⟨false, true, true, true⟩) rfl rfl rfl
    (Or.inr ⟨⟨false, true, true, true⟩, rfl, Or.inl rfl⟩) rfl

/-- C2: every configuration with all four flags true is `configs_equal` to the
desired one, and on a Create event fetching such a configuration the handler
performs no store write and delivers a SUCCESS response whose `Data` has
`ConfigurationChanged = false`. -/
theorem handle_create_compliant_no_write
    (env : Env) (event : Event) (ctx : Context) (aid : String) (c : BPAConfig)
    (hrt : event.requestType = "Create")
    (hsts : env.stsResult = .ok aid)
    (hfetch : (get_current_bpa_config env aid).1 = .ok (some c))
    (hall : c.blockPublicAcls = true ∧ c.ignorePublicAcls = true ∧
        c.blockPublicPolicy = true ∧ c.restrictPublicBuckets = true) :
    configs_equal (some c) get_desired_config = true ∧
    applyCalls (lambda_handler env event ctx) = [] ∧
    ∃ b, callbacks (lambda_handler env event ctx) = [(event.responseURL, b)] ∧
      b.status = "SUCCESS" ∧
      b.data = some (RespData.createData c false env.timestamp) := by
  obtain ⟨h1, h2, h3, h4⟩ := hall
  have heq : configs_equal (some c) get_desired_config = true := by
    simp [configs_equal, get_desired_config, h1, h2, h3, h4]
  have key := lambda_handler_create_ok env event ctx _ hrt
    (handle_create_no_write_eq env event ctx event.resourceProperties aid c
      hsts hfetch heq)
  rw [key]
  refine ⟨heq, ?_, response_body event ctx "SUCCESS"
      "S3 Block Public Access already fully enabled at account level"
      (some (RespData.createData c false env.timestamp)),
    ?_, rfl, rfl⟩
  · simp [applyCalls_cons_fetch, applyCalls_append, applyCalls_sns,
      applyCalls_send_response, applyCalls_nil]
  · simp [callbacks_cons_fetch, callbacks_append, callbacks_sns,
      callbacks_send_response, callbacks_nil]

theorem handle_create_compliant_no_write_witness :
    configs_equal (some ⟨true, true, true, true⟩) get_desired_config = true ∧
    applyCalls (lambda_handler (sampleEnv (.ok storedAllTrue))
        (sampleCreateEvent none) sampleCtx) = [] ∧
    ∃ b, callbacks (lambda_handler (sampleEnv (.ok storedAllTrue))
        (sampleCreateEvent none) sampleCtx)
      = [((sampleCreateEvent none).responseURL, b)] ∧
      b.status = "SUCCESS" ∧
      b.data = some (RespData.createData ⟨true, true, true, true⟩ false
        (sampleEnv (.ok storedAllTrue)).timestamp) :=
  handle_create_compliant_no_write _ _ _ "123456789012" ⟨true, true, true, true⟩
    rfl rfl rfl ⟨rfl, rfl, rfl, rfl⟩

/-- C9: `handle_create` is idempotent with respect to the BPA store: when the
store already holds the all-true desired configuration (as it does right after
a `handle_create` that succeeded), running `handle_create` again performs no
further write and reports `ConfigurationChanged = false`. -/
theorem handle_create_idempotent_after_success
    (env : Env) (event : Event) (ctx : Context) (props : Props) (aid : String)
    (hsts : env.stsResult = .ok aid)
    (hfetch : (get_current_bpa_config env aid).1 = .ok (some get_desired_config)) :
    applyCalls (handle_create env event ctx props).2 = [] ∧
    ∃ b, callbacks (handle_create env event ctx props).2 = [(event.responseURL, b)] ∧
      b.status = "SUCCESS" ∧
      b.data = some (RespData.createData get_desired_config false env.timestamp) := by
  have key := handle_create_no_write_eq env event ctx props aid get_desired_config
    hsts hfetch (by decide)
  rw [key]
  refine ⟨?_, response_body event ctx "SUCCESS"
      "S3 Block Public Access already fully enabled at account level"
      (some (RespData.createData get_desired_config false env.timestamp)),
    ?_, rfl, rfl⟩
  · simp [applyCalls_cons_fetch, applyCalls_append, applyCalls_sns,
      applyCalls_send_response, applyCalls_nil]
  · simp [callbacks_cons_fetch, callbacks_append, callbacks_sns,
      callbacks_send_response, callbacks_nil]

theorem handle_create_idempotent_after_success_witness :
    applyCalls (handle_create (sampleEnv (.ok storedAllTrue))
        (sampleCreateEvent none) sampleCtx ⟨none⟩).2 = [] ∧
    ∃ b, callbacks (handle_create (sampleEnv (.ok storedAllTrue))
        (sampleCreateEvent none) sampleCtx ⟨none⟩).2
      = [((sampleCreateEvent none).responseURL, b)] ∧
      b.status = "SUCCESS" ∧
      b.data = some (RespData.createData get_desired_config false
        (sampleEnv (.ok storedAllTrue)).timestamp) :=
  handle_create_idempotent_after_success _ _ _ _ "123456789012" rfl rfl

/-- C10: a fetched configuration that exists always reports each omitted flag
as true, and when every flag the store did return is true the fetched
configuration equals the desired one, so `handle_create` performs no write and
reports `ConfigurationChanged = false`. -/
theorem fetch_defaults_missing_flags_to_true
    (env : Env) (event : Event) (ctx : Context) (props : Props) (aid : String)
    (stored : StoredConfig)
    (hsts : env.stsResult = .ok aid)
    (hstore : env.fetchResult = .ok stored)
    (honly : (stored.blockPublicAcls = none ∨ stored.blockPublicAcls = some true) ∧
        (stored.ignorePublicAcls = none ∨ stored.ignorePublicAcls = some true) ∧
        (stored.blockPublicPolicy = none ∨ stored.blockPublicPolicy = some true) ∧
        (stored.restrictPublicBuckets = none ∨ stored.restrictPublicBuckets = some true)) :
    (∀ (env' : Env) (aid' : String) (stored' : StoredConfig) (c : BPAConfig),
        env'.fetchResult = .ok stored' →
        (get_current_bpa_config env' aid').1 = .ok (some c) →
        (stored'.blockPublicAcls = none → c.blockPublicAcls = true) ∧
        (stored'.ignorePublicAcls = none → c.ignorePublicAcls = true) ∧
        (stored'.blockPublicPolicy = none → c.blockPublicPolicy = true) ∧
        (stored'.restrictPublicBuckets = none → c.restrictPublicBuckets = true)) ∧
    (get_current_bpa_config env aid).1 = .ok (some get_desired_config) ∧
    applyCalls (handle_create env event ctx props).2 = [] ∧
    ∃ b, callbacks (handle_create env event ctx props).2 = [(event.responseURL, b)] ∧
      b.status = "SUCCESS" ∧
      b.data = some (RespData.createData get_desired_config false env.timestamp) := by
  have hdef : ∀ (env' : Env) (aid' : String) (stored' : StoredConfig) (c : BPAConfig),
      env'.fetchResult = .ok stored' →
      (get_current_bpa_config env' aid').1 = .ok (some c) →
      (stored'.blockPublicAcls = none → c.blockPublicAcls = true) ∧
      (stored'.ignorePublicAcls = none → c.ignorePublicAcls = true) ∧
      (stored'.blockPublicPolicy = none → c.blockPublicPolicy = true) ∧
      (stored'.restrictPublicBuckets = none → c.restrictPublicBuckets = true) := by
    intro env' aid' stored' c hfr' hc'
    rw [show (get_current_bpa_config env' aid').1
        = (match env'.fetchResult with
           | .ok config =>
               Except.ok (some
                 { blockPublicAcls := config.blockPublicAcls.getD true
                   ignorePublicAcls := config.ignorePublicAcls.getD true
                   blockPublicPolicy := config.blockPublicPolicy.getD true
                   restrictPublicBuckets := config.restrictPublicBuckets.getD true })
           | .error e =>
               if e.code = "NoSuchPublicAccessBlockConfiguration" then .ok none
               else .error (.clientError e.code e.message)) from rfl, hfr'] at hc'
    simp at hc'
    subst hc'
    refine ⟨?_, ?_, ?_, ?_⟩ <;> intro hnone <;> simp [hnone]
  have hfetch : (get_current_bpa_config env aid).1 = .ok (some get_desired_config) := by
    obtain ⟨h1 | h1, h2 | h2, h3 | h3, h4 | h4⟩ := honly <;>
      simp [get_current_bpa_config, hstore, get_desired_config, h1, h2, h3, h4]
  have key := handle_create_no_write_eq env event ctx props aid get_desired_config
    hsts hfetch (by decide)
  rw [key]
  refine ⟨hdef, hfetch, ?_, response_body event ctx "SUCCESS"
      "S3 Block Public Access already fully enabled at account level"
      (some (RespData.createData get_desired_config false env.timestamp)),
    ?_, rfl, rfl⟩
  · simp [applyCalls_cons_fetch, applyCalls_append, applyCalls_sns,
      applyCalls_send_response, applyCalls_nil]
  · simp [callbacks_cons_fetch, callbacks_append, callbacks_sns,
      callbacks_send_response, callbacks_nil]

theorem fetch_defaults_missing_flags_to_true_witness :
    (∀ (env' : Env) (aid' : String) (stored' : StoredConfig) (c : BPAConfig),
        env'.fetchResult = .ok stored' →
        (get_current_bpa_config env' aid').1 = .ok (some c) →
        (stored'.blockPublicAcls = none → c.blockPublicAcls = true) ∧
        (stored'.ignorePublicAcls = none → c.ignorePublicAcls = true) ∧
        (stored'.blockPublicPolicy = none → c.blockPublicPolicy = true) ∧
        (stored'.restrictPublicBuckets = none → c.restrictPublicBuckets = true)) ∧
    (get_current_bpa_config (sampleEnv (.ok ⟨none, some true, none, none⟩))
        "123456789012").1 = .ok (some get_desired_config) ∧
    applyCalls (handle_create (sampleEnv (.ok ⟨none, some true, none, none⟩))
        (sampleCreateEvent none) sampleCtx ⟨none⟩).2 = [] ∧
    ∃ b, callbacks (handle_create (sampleEnv (.ok ⟨none, some true, none, none⟩))
        (sampleCreateEvent none) sampleCtx ⟨none⟩).2
      = [((sampleCreateEvent none).responseURL, b)] ∧
      b.status = "SUCCESS" ∧
      b.data = some (RespData.createData get_desired_config false
        (sampleEnv (.ok ⟨none, some true, none, none⟩)).timestamp) :=
  fetch_defaults_missing_flags_to_true _ _ _ _ "123456789012"
    ⟨none, some true, none, none⟩ rfl rfl
    ⟨Or.inl rfl, Or.inr rfl, Or.inl rfl, Or.inl rfl⟩

/-- The publish attempts of a failure path: whatever the aborted create
attempted, then one failure notification when the event configures a
(nonempty) topic, none otherwise. -/
theorem publishSubjects_fail_path (env : Env) (event : Event) (ctx : Context)
    (s r : String) (eff : List Effect) :
    publishSubjects (fail_path env event ctx s r eff)
      = publishSubjects eff ++
        (match event.resourceProperties.notificationTopicArn with
         | none => []
         | some t => if t = "" then [] else [s]) := by
  unfold fail_path
  simp [publishSubjects_append, publishSubjects_sns, publishSubjects_send_response]

/-- C8: on a Create event whose reconciliation succeeds, a failure of the SNS
publish changes nothing about the delivered response: the callback attempts
are identical whether the publish raises or not, and the response still has
Status = SUCCESS (hence the same `Data`). -/
theorem sns_failure_does_not_change_response
    (env : Env) (event : Event) (ctx : Context) (aid : String)
    (current : Option BPAConfig)
    (hrt : event.requestType = "Create")
    (hsts : env.stsResult = .ok aid)
    (hfetch : (get_current_bpa_config env aid).1 = .ok current)
    (hok : configs_equal current get_desired_config = true ∨ env.applyError = none) :
    callbacks (lambda_handler { env with snsFails := true } event ctx)
      = callbacks (lambda_handler { env with snsFails := false } event ctx) ∧
    ∃ b, callbacks (lambda_handler { env with snsFails := true } event ctx)
      = [(event.responseURL, b)] ∧ b.status = "SUCCESS" := by
  cases hc : configs_equal current get_desired_config with
  | true =>
    cases current with
    | none => simp [configs_equal] at hc
    | some c =>
      have k1 := lambda_handler_create_ok { env with snsFails := true } event ctx _ hrt
        (handle_create_no_write_eq { env with snsFails := true } event ctx
          event.resourceProperties aid c hsts hfetch hc)
      have k0 := lambda_handler_create_ok { env with snsFails := false } event ctx _ hrt
        (handle_create_no_write_eq { env with snsFails := false } event ctx
          event.resourceProperties aid c hsts hfetch hc)
      rw [k1, k0]
      refine ⟨?_, response_body event ctx "SUCCESS"
          "S3 Block Public Access already fully enabled at account level"
          (some (RespData.createData c false env.timestamp)), ?_, rfl⟩ <;>
        simp [callbacks_cons_fetch, callbacks_append, callbacks_sns,
          callbacks_send_response, callbacks_nil]
  | false =>
    have happly : env.applyError = none := by
      rcases hok with h | h
      · simp [h] at hc
      · exact h
    have k1 := lambda_handler_create_ok { env with snsFails := true } event ctx _ hrt
      (handle_create_applies_eq { env with snsFails := true } event ctx
        event.resourceProperties aid current hsts hfetch hc happly)
    have k0 := lambda_handler_create_ok { env with snsFails := false } event ctx _ hrt
      (handle_create_applies_eq { env with snsFails := false } event ctx
        event.resourceProperties aid current hsts hfetch hc happly)
    rw [k1, k0]
    refine ⟨?_, response_body event ctx "SUCCESS"
        "S3 Block Public Access fully enabled at account level"
        (some (RespData.createData get_desired_config true env.timestamp)), ?_, rfl⟩ <;>
      simp [callbacks_cons_fetch, callbacks_cons_apply, callbacks_append,
        callbacks_sns, callbacks_send_response, callbacks_nil]

theorem sns_failure_does_not_change_response_witness :
    callbacks (lambda_handler
        { sampleEnv (.ok storedAllTrue) with snsFails := true }
        (sampleCreateEvent (some "arn:aws:sns:us-east-1:123456789012:t")) sampleCtx)
      = callbacks (lambda_handler
        { sampleEnv (.ok storedAllTrue) with snsFails := false }
        (sampleCreateEvent (some "arn:aws:sns:us-east-1:123456789012:t")) sampleCtx) ∧
    ∃ b, callbacks (lambda_handler
        { sampleEnv (.ok storedAllTrue) with snsFails := true }
        (sampleCreateEvent (some "arn:aws:sns:us-east-1:123456789012:t")) sampleCtx)
      = [((sampleCreateEvent (some "arn:aws:sns:us-east-1:123456789012:t")).responseURL, b)] ∧
      b.status = "SUCCESS" :=
  sns_failure_does_not_change_response _ _ _ "123456789012"
    (some ⟨true, true, true, true⟩) rfl rfl rfl (Or.inl rfl)

/-- C4: on a Create event whose fetch or write raises `AccessDenied`, the
delivered response is FAILED with the insufficient-permissions reason, and
exactly one failure notification is published when the event carries a
nonempty `NotificationTopicArn`, none when it carries no topic at all. -/
theorem create_access_denied_fails_and_notifies
    (env : Env) (event : Event) (ctx : Context) (aid emsg : String)
    (hrt : event.requestType = "Create")
    (hsts : env.stsResult = .ok aid)
    (hfail : env.fetchResult = .error ⟨"AccessDenied", emsg⟩ ∨
        ∃ current, (get_current_bpa_config env aid).1 = .ok current ∧
          configs_equal current get_desired_config = false ∧
          env.applyError = some ⟨"AccessDenied", emsg⟩) :
    (∃ b, callbacks (lambda_handler env event ctx) = [(event.responseURL, b)] ∧
        b.status = "FAILED" ∧
        b.reason = "Insufficient permissions to modify S3 Block Public Access settings") ∧
    (∀ t, event.resourceProperties.notificationTopicArn = some t → t ≠ "" →
        publishSubjects (lambda_handler env event ctx)
          = ["S3 Block Public Access - Configuration Failed"]) ∧
    (event.resourceProperties.notificationTopicArn = none →
        publishSubjects (lambda_handler env event ctx) = []) := by
  have main : ∃ eff, lambda_handler env event ctx
      = fail_path env event ctx "S3 Block Public Access - Configuration Failed"
        "Insufficient permissions to modify S3 Block Public Access settings" eff ∧
      publishSubjects eff = [] ∧ callbacks eff = [] := by
    rcases hfail with hfr | ⟨current, hfetch, hne, ha⟩
    · refine ⟨[Effect.fetchConfig aid], ?_, rfl, rfl⟩
      have key := lambda_handler_create_client_error env event ctx _ "AccessDenied"
        emsg hrt
        (handle_create_fetch_error_eq env event ctx event.resourceProperties aid
          ⟨"AccessDenied", emsg⟩ hsts hfr (by simp))
      rw [key]
      simp
    · refine ⟨[Effect.fetchConfig aid, Effect.applyConfig get_desired_config aid],
        ?_, rfl, rfl⟩
      have key := lambda_handler_create_client_error env event ctx _ "AccessDenied"
        emsg hrt
        (handle_create_apply_error_eq env event ctx event.resourceProperties aid
          current ⟨"AccessDenied", emsg⟩ hsts hfetch hne ha)
      rw [key]
      simp
  obtain ⟨eff, hmain, hpub, hcb⟩ := main
  refine ⟨⟨response_body event ctx "FAILED"
      "Insufficient permissions to modify S3 Block Public Access settings" none,
      ?_, rfl, rfl⟩, ?_, ?_⟩
  · rw [hmain]
    exact callbacks_fail_path _ _ _ _ _ _ hcb
  · intro t ht hne'
    rw [hmain, publishSubjects_fail_path, hpub, ht]
    simp [hne']
  · intro hnone
    rw [hmain, publishSubjects_fail_path, hpub, hnone]
    rfl

theorem create_access_denied_fails_and_notifies_witness :
    (∃ b, callbacks (lambda_handler (sampleEnv (.error ⟨"AccessDenied", "denied"⟩))
        (sampleCreateEvent (some "arn:aws:sns:us-east-1:123456789012:t")) sampleCtx)
      = [((sampleCreateEvent (some "arn:aws:sns:us-east-1:123456789012:t")).responseURL, b)] ∧
        b.status = "FAILED" ∧
        b.reason = "Insufficient permissions to modify S3 Block Public Access settings") ∧
    (∀ t, (sampleCreateEvent (some "arn:aws:sns:us-east-1:123456789012:t")).resourceProperties.notificationTopicArn
          = some t → t ≠ "" →
        publishSubjects (lambda_handler (sampleEnv (.error ⟨"AccessDenied", "denied"⟩))
          (sampleCreateEvent (some "arn:aws:sns:us-east-1:123456789012:t")) sampleCtx)
          = ["S3 Block Public Access - Configuration Failed"]) ∧
    ((sampleCreateEvent (some "arn:aws:sns:us-east-1:123456789012:t")).resourceProperties.notificationTopicArn
          = none →
        publishSubjects (lambda_handler (sampleEnv (.error ⟨"AccessDenied", "denied"⟩))
          (sampleCreateEvent (some "arn:aws:sns:us-east-1:123456789012:t")) sampleCtx)
          = []) :=
  create_access_denied_fails_and_notifies _ _ _ "123456789012" "denied"
    rfl rfl (Or.inl rfl)

/-- C3 (code bug): on a Create event carrying no `PhysicalResourceId`, even
though identity resolution returns account `123456789012`, the delivered
response's `PhysicalResourceId` is `account-bpa-req-42` — built from the
Lambda context's `aws_request_id` — and not `account-bpa-123456789012`, the
`account-bpa-<accountId>` format stable across updates for the same account. -/
theorem physical_id_built_from_request_id :
    (sampleEnv (.ok storedAllTrue)).stsResult = Except.ok "123456789012" ∧
    ∃ b, callbacks (lambda_handler (sampleEnv (.ok storedAllTrue))
        (sampleCreateEvent none) sampleCtx)
      = [("https://example.com/cb", b)] ∧
      b.physicalResourceId = "account-bpa-req-42" ∧
      b.physicalResourceId ≠ "account-bpa-123456789012" := by
  refine ⟨rfl, response_body (sampleCreateEvent none) sampleCtx "SUCCESS"
      "S3 Block Public Access already fully enabled at account level"
      (some (RespData.createData ⟨true, true, true, true⟩ false "2026-01-01T00:00:00")),
    ?_, rfl, by decide⟩
  rfl

end BPA
